import Mathlib

/-!
Shallow embedding of the webauthn-rs verification core
(`webauthn-rs-core/src/crypto.rs` and `webauthn-rs/src/lib.rs`).

Byte strings are modelled as `List Nat`; machine integers that the code
compares are modelled as `Int` (the Rust code works with `i128` values
extracted from CBOR).  The OpenSSL cryptographic backend is modelled as an
explicit record of oracle functions (`Backend`): the embedding mirrors
exactly which backend calls the source makes and how their results are
threaded, while the numeric content of ECDSA/RSA verification stays
abstract.  Fallible Rust functions returning `Result` are modelled with
`Except`.
-/

namespace WebauthnRs

/-- Errors of `webauthn_rs_core::error::WebauthnError`, restricted to the
variants reachable from the embedded functions. -/
inductive WebauthnError where
  | Configuration
  | CredentialInsecureCryptography
  | COSEKeyInvalidType
  | COSEKeyInvalidCBORValue
  | COSEKeyInvalidAlgorithm
  | COSEKeyECDSAXYInvalid
  | COSEKeyRSANEInvalid
  | COSEKeyEDDSAXInvalid
  | COSEKeyEDUnsupported
  | ECDSACurveInvalidNid
  | EDDSACurveInvalid
  | AttestationCertificateRequirementsNotMet
  | AttestationStatementX5CInvalid
  | ParseNOMFailure
  | OpenSSLError
  | OpenSSLErrorNoCurveName
  | MissingAttestationCaList
  deriving DecidableEq, Repr

/-- COSE algorithm identifiers (`COSEAlgorithm` in `proto`), as listed in the
spec §3: ES256(-7), ES384(-35), ES512(-36), RS256(-257), RS384(-258),
RS512(-259), PS256(-37), PS384(-38), PS512(-39), EDDSA(-8),
INSECURE_RS1(-65535); the source additionally has a `PinUvProtocol` variant
(matched in `crypto.rs`). -/
inductive COSEAlgorithm where
  | ES256
  | ES384
  | ES512
  | RS256
  | RS384
  | RS512
  | PS256
  | PS384
  | PS512
  | EDDSA
  | PinUvProtocol
  | INSECURE_RS1
  deriving DecidableEq, Repr

/-- Modelled from the spec: `COSEAlgorithm::try_from(i128)` lives in the
`proto` module which is not under `src/`; the identifier table is the one the
spec §3 gives.  `PinUvProtocol` has no identifier in the spec and is not
produced. -/
def COSEAlgorithm.fromI128 (i : Int) : Except Unit COSEAlgorithm :=
  if i = -7 then .ok .ES256
  else if i = -35 then .ok .ES384
  else if i = -36 then .ok .ES512
  else if i = -257 then .ok .RS256
  else if i = -258 then .ok .RS384
  else if i = -259 then .ok .RS512
  else if i = -37 then .ok .PS256
  else if i = -38 then .ok .PS384
  else if i = -39 then .ok .PS512
  else if i = -8 then .ok .EDDSA
  else if i = -65535 then .ok .INSECURE_RS1
  else .error ()

/-- ECDSA curves supported by the source (`ECDSACurve`). -/
inductive ECDSACurve where
  | SECP256R1
  | SECP384R1
  | SECP521R1
  deriving DecidableEq, Repr

/-- Modelled from the spec: `ECDSACurve::coordinate_size` lives in `proto`
(not under `src/`); spec §3 fixes the sizes 32/48/66 for P-256/P-384/P-521. -/
def ECDSACurve.coordinate_size : ECDSACurve → Nat
  | .SECP256R1 => 32
  | .SECP384R1 => 48
  | .SECP521R1 => 66

/-- Modelled from the spec: `ECDSACurve::try_from(i128)` for COSE curve
labels lives in `proto` (not under `src/`); the labels 1/2/3 for
P-256/P-384/P-521 are those of the spec §8 fixtures (and of the
`crypto.rs` unit tests). -/
def ECDSACurve.fromI128 (i : Int) : Except WebauthnError ECDSACurve :=
  if i = 1 then .ok .SECP256R1
  else if i = 2 then .ok .SECP384R1
  else if i = 3 then .ok .SECP521R1
  else .error .ECDSACurveInvalidNid

/-- OpenSSL numeric curve identifiers, used by
`impl TryFrom<nid::Nid> for ECDSACurve` in `crypto.rs`
(NID_X9_62_prime256v1 = 415, NID_secp384r1 = 715, NID_secp521r1 = 716). -/
def Nid.X9_62_PRIME256V1 : Nat := 415

def Nid.SECP384R1 : Nat := 715

def Nid.SECP521R1 : Nat := 716

/-- `impl TryFrom<nid::Nid> for ECDSACurve` (`crypto.rs` lines 393-403). -/
def ECDSACurve.fromNid (nid : Nat) : Except WebauthnError ECDSACurve :=
  if nid = Nid.X9_62_PRIME256V1 then .ok .SECP256R1
  else if nid = Nid.SECP384R1 then .ok .SECP384R1
  else if nid = Nid.SECP521R1 then .ok .SECP521R1
  else .error .ECDSACurveInvalidNid

/-- EdDSA curves (`EDDSACurve` in `proto`). -/
inductive EDDSACurve where
  | ED25519
  | ED448
  deriving DecidableEq, Repr

/-- Modelled from the spec: `EDDSACurve::try_from(i128)` lives in `proto`
(not under `src/`); the COSE labels 6/7 for Ed25519/Ed448 are the RFC 8152
registry values for the curves the spec §3 names. -/
def EDDSACurve.fromI128 (i : Int) : Except WebauthnError EDDSACurve :=
  if i = 6 then .ok .ED25519
  else if i = 7 then .ok .ED448
  else .error .EDDSACurveInvalid

/-- Modelled from the spec: the `COSEKeyTypeId` discriminants live in `proto`
(not under `src/`); spec §4.2 fixes label 1 → OKP, 2 → EC2, 3 → RSA. -/
def COSEKeyTypeId.EC_OKP : Int := 1

/-- Modelled from the spec: see `COSEKeyTypeId.EC_OKP`. -/
def COSEKeyTypeId.EC_EC2 : Int := 2

/-- Modelled from the spec: see `COSEKeyTypeId.EC_OKP`. -/
def COSEKeyTypeId.EC_RSA : Int := 3

/-- `COSEEC2Key`: curve plus affine coordinates as byte strings. -/
structure COSEEC2Key where
  curve : ECDSACurve
  x : List Nat
  y : List Nat
  deriving DecidableEq, Repr

/-- `COSERSAKey`: modulus and public exponent bytes (the exponent is a
`[u8; 3]` in the source, always exactly 3 bytes). -/
structure COSERSAKey where
  n : List Nat
  e : List Nat
  deriving DecidableEq, Repr

/-- `COSEOKPKey`: EdDSA curve plus the 32-byte `x` (a `[u8; 32]`). -/
structure COSEOKPKey where
  curve : EDDSACurve
  x : List Nat
  deriving DecidableEq, Repr

/-- `COSEKeyType`: the tagged key material of a COSE key. -/
inductive COSEKeyType where
  | EC_EC2 (k : COSEEC2Key)
  | RSA (k : COSERSAKey)
  | EC_OKP (k : COSEOKPKey)
  deriving DecidableEq, Repr

/-- `COSEKey`: algorithm plus key material. -/
structure COSEKey where
  type_ : COSEAlgorithm
  key : COSEKeyType
  deriving DecidableEq, Repr

/-- An OpenSSL `PKey<Public>` as reconstructed by `get_openssl_pkey`: either
an EC key built from affine coordinates or an RSA key built from (n, e). -/
inductive PKey where
  | ec (curve : ECDSACurve) (x y : List Nat)
  | rsa (n e : List Nat)
  deriving DecidableEq, Repr

/-- The OpenSSL backend, abstracted as oracles.  `ecCheckKey` is the outcome
of `EcKey::from_public_key_affine_coordinates` followed by `check_key`
(point-on-curve validation); `rsaFromComponents` is the outcome of
`Rsa::from_public_components`; `verify` is the outcome of a
`sign::Verifier` configured for the given algorithm (digest and padding are
determined by the algorithm) run over the given signature and data. -/
structure Backend where
  ecCheckKey : ECDSACurve → List Nat → List Nat → Bool
  rsaFromComponents : List Nat → List Nat → Bool
  verify : PKey → COSEAlgorithm → List Nat → List Nat → Bool

/-- A backend whose oracles always succeed; used to evaluate the embedding
on concrete inputs. -/
def trivialBackend : Backend where
  ecCheckKey := fun _ _ _ => true
  rsaFromComponents := fun _ _ => true
  verify := fun _ _ _ _ => true

/-- `pkey_verify_signature` (`crypto.rs` lines 30-63): builds a verifier for
ES256 (SHA-256 ECDSA) or RS256 (SHA-256 with PKCS1 padding), rejects
INSECURE_RS1 with `CredentialInsecureCryptography`, and rejects every other
algorithm with `COSEKeyInvalidType`; on the two supported algorithms it
returns the boolean verdict of the verifier. -/
def pkey_verify_signature (B : Backend) (pkey : PKey) (stype : COSEAlgorithm)
    (signature verification_data : List Nat) : Except WebauthnError Bool :=
  match stype with
  | .ES256 => .ok (B.verify pkey .ES256 signature verification_data)
  | .RS256 => .ok (B.verify pkey .RS256 signature verification_data)
  | .INSECURE_RS1 => .error .CredentialInsecureCryptography
  | _ => .error .COSEKeyInvalidType

/-- `COSEKey::validate` (`crypto.rs` lines 692-730): EC2 keys are imported
from affine coordinates and checked on-curve; RSA keys are imported from
(n, e); OKP keys are rejected with `COSEKeyEDUnsupported`. -/
def COSEKey.validate (B : Backend) (k : COSEKey) : Except WebauthnError Unit :=
  match k.key with
  | .EC_EC2 ec2k =>
      if B.ecCheckKey ec2k.curve ec2k.x ec2k.y then .ok () else .error .OpenSSLError
  | .RSA rsak =>
      if B.rsaFromComponents rsak.n rsak.e then .ok () else .error .OpenSSLError
  | .EC_OKP _ => .error .COSEKeyEDUnsupported

/-- `COSEKey::get_openssl_pkey` (`crypto.rs` lines 733-772): rebuilds the
OpenSSL public key for EC2 and RSA material and fails with
`COSEKeyInvalidType` for anything else (the `_` arm, which catches OKP). -/
def COSEKey.get_openssl_pkey (B : Backend) (k : COSEKey) : Except WebauthnError PKey :=
  match k.key with
  | .EC_EC2 ec2k =>
      if B.ecCheckKey ec2k.curve ec2k.x ec2k.y then
        .ok (.ec ec2k.curve ec2k.x ec2k.y)
      else .error .OpenSSLError
  | .RSA rsak =>
      if B.rsaFromComponents rsak.n rsak.e then
        .ok (.rsa rsak.n rsak.e)
      else .error .OpenSSLError
  | .EC_OKP _ => .error .COSEKeyInvalidType

/-- `COSEKey::verify_signature` (`crypto.rs` lines 774-783). -/
def COSEKey.verify_signature (B : Backend) (k : COSEKey)
    (signature verification_data : List Nat) : Except WebauthnError Bool :=
  match k.get_openssl_pkey B with
  | .error e => .error e
  | .ok pkey => pkey_verify_signature B pkey k.type_ signature verification_data

/-! ## CBOR values and COSE key decoding -/

/-- A `serde_cbor_2::Value`, restricted to the shapes the COSE key decoder
inspects.  COSE_Key maps are keyed by integer labels, so map entries carry
`Int` keys (in `serde_cbor` a map is a `BTreeMap`, queried here only with
`Value::Integer` keys). -/
inductive CborValue where
  | int (i : Int)
  | bytes (b : List Nat)
  | text (s : String)
  | map (entries : List (Int × CborValue))

/-- Map lookup: `BTreeMap::get` with an integer key (first matching entry;
a `BTreeMap` holds each key at most once). -/
def cborMapGet (m : List (Int × CborValue)) (k : Int) : Option CborValue :=
  match m.find? (fun p => p.1 = k) with
  | some p => some p.2
  | none => none

/-- Modelled from the spec: the `cbor_try_map!` macro is not under `src/`;
per spec §4.1 typed extraction from a CBOR value fails on a type
mismatch. -/
def cborTryMap : CborValue → Except WebauthnError (List (Int × CborValue))
  | .map m => .ok m
  | _ => .error .COSEKeyInvalidCBORValue

/-- Modelled from the spec: the `cbor_try_i128!` macro is not under `src/`;
per spec §4.1 it extracts a signed integer and fails on a type mismatch. -/
def cborTryI128 : CborValue → Except WebauthnError Int
  | .int i => .ok i
  | _ => .error .COSEKeyInvalidCBORValue

/-- Modelled from the spec: the `cbor_try_bytes!` macro is not under `src/`;
per spec §4.1 it extracts a byte string and fails on a type mismatch. -/
def cborTryBytes : CborValue → Except WebauthnError (List Nat)
  | .bytes b => .ok b
  | _ => .error .COSEKeyInvalidCBORValue

/-- `impl TryFrom<&serde_cbor_2::Value> for COSEKey`
(`crypto.rs` lines 443-608): reads labels 1 (key type) and 3 (algorithm),
then branches on the `(key type, algorithm)` consistency table
(EC2 with ES256/ES384/ES512, RSA with RS256, OKP with EDDSA); every other
combination falls to the final `COSEKeyInvalidType` arm.  Each branch
extracts the per-type fields, checks the length invariants, and runs
`COSEKey::validate` before returning the key. -/
def COSEKey.tryFromCbor (B : Backend) (d : CborValue) : Except WebauthnError COSEKey := do
  let m ← cborTryMap d
  let key_type_value ←
    match cborMapGet m 1 with
    | some v => Except.ok v
    | none => Except.error WebauthnError.COSEKeyInvalidCBORValue
  let key_type ← cborTryI128 key_type_value
  let content_type_value ←
    match cborMapGet m 3 with
    | some v => Except.ok v
    | none => Except.error WebauthnError.COSEKeyInvalidCBORValue
  let content_type ← cborTryI128 content_type_value
  let type_ ←
    match COSEAlgorithm.fromI128 content_type with
    | .ok a => Except.ok a
    | .error _ => Except.error WebauthnError.COSEKeyInvalidAlgorithm
  if key_type = COSEKeyTypeId.EC_EC2 ∧
      (type_ = COSEAlgorithm.ES256 ∨ type_ = COSEAlgorithm.ES384 ∨
        type_ = COSEAlgorithm.ES512) then
    let curve_type_value ←
      match cborMapGet m (-1) with
      | some v => Except.ok v
      | none => Except.error WebauthnError.COSEKeyInvalidCBORValue
    let curve_type ← cborTryI128 curve_type_value
    let curve ← ECDSACurve.fromI128 curve_type
    let x_value ←
      match cborMapGet m (-2) with
      | some v => Except.ok v
      | none => Except.error WebauthnError.COSEKeyInvalidCBORValue
    let x ← cborTryBytes x_value
    let y_value ←
      match cborMapGet m (-3) with
      | some v => Except.ok v
      | none => Except.error WebauthnError.COSEKeyInvalidCBORValue
    let y ← cborTryBytes y_value
    let coord_len := curve.coordinate_size
    if x.length ≠ coord_len ∨ y.length ≠ coord_len then
      Except.error WebauthnError.COSEKeyECDSAXYInvalid
    else
      let cose_key : COSEKey := ⟨type_, .EC_EC2 ⟨curve, x, y⟩⟩
      cose_key.validate B
      Except.ok cose_key
  else if key_type = COSEKeyTypeId.EC_RSA ∧ type_ = COSEAlgorithm.RS256 then
    let n_value ←
      match cborMapGet m (-1) with
      | some v => Except.ok v
      | none => Except.error WebauthnError.COSEKeyInvalidCBORValue
    let n ← cborTryBytes n_value
    let e_value ←
      match cborMapGet m (-2) with
      | some v => Except.ok v
      | none => Except.error WebauthnError.COSEKeyInvalidCBORValue
    let e ← cborTryBytes e_value
    if n.length ≠ 256 ∨ e.length ≠ 3 then
      Except.error WebauthnError.COSEKeyRSANEInvalid
    else
      let cose_key : COSEKey := ⟨type_, .RSA ⟨n, e⟩⟩
      cose_key.validate B
      Except.ok cose_key
  else if key_type = COSEKeyTypeId.EC_OKP ∧ type_ = COSEAlgorithm.EDDSA then
    let curve_type_value ←
      match cborMapGet m (-1) with
      | some v => Except.ok v
      | none => Except.error WebauthnError.COSEKeyInvalidCBORValue
    let curve_type ← cborTryI128 curve_type_value
    let x_value ←
      match cborMapGet m (-2) with
      | some v => Except.ok v
      | none => Except.error WebauthnError.COSEKeyInvalidCBORValue
    let x ← cborTryBytes x_value
    if x.length ≠ 32 then
      Except.error WebauthnError.COSEKeyEDDSAXInvalid
    else
      let curve ← EDDSACurve.fromI128 curve_type
      let cose_key : COSEKey := ⟨type_, .EC_OKP ⟨curve, x⟩⟩
      cose_key.validate B
      Except.ok cose_key
  else
    Except.error WebauthnError.COSEKeyInvalidType

/-! ## X.509 certificates

An `openssl::x509::X509` together with its `x509_parser` re-parse is
modelled as a record of the results of the accessor calls the source makes.
`assert_packed_attest_req` and `assert_tpm_attest_req` both start by
serialising the in-memory certificate with `to_der` and re-parsing it with
`x509_parser::parse_x509_certificate`; for a well-formed in-memory
certificate this round-trip yields the same certificate, so the model
exposes the parsed view directly. -/

/-- A parsed X.509 extension of which only the critical flag is inspected
(`id-fido-gen-ce-aaguid`). -/
structure X509Ext where
  critical : Bool
  deriving DecidableEq, Repr

/-- The Basic Constraints extension: critical flag and the `CA` component
(`basic_constraints().value.ca`). -/
structure BasicConstraintsExt where
  critical : Bool
  ca : Bool
  deriving DecidableEq, Repr

/-- One attribute of an X.501 name: its type as raw OID bytes
(`attr_type().as_bytes()`) and the result of `attr_value().as_str()`
(`Except.error` when the value is not a string). -/
structure DnAttr where
  attrType : List Nat
  attrValueStr : Except Unit String
  deriving Repr

/-- A `GeneralName` inside a Subject Alternative Name: the TPM check only
distinguishes `DirectoryName` entries (with their attribute list) from
everything else. -/
inductive GeneralName where
  | directoryName (attrs : List DnAttr)
  | other
  deriving Repr

/-- The Subject Alternative Name extension. -/
structure SanExt where
  critical : Bool
  generalNames : List GeneralName
  deriving Repr

/-- The Extended Key Usage extension; `other` is the list of non-standard
OIDs (`extended_key_usage().value.other`), each as its component list. -/
structure EkuExt where
  other : List (List Nat)
  deriving DecidableEq, Repr

/-- The result of an `x509_parser` extension lookup,
`Result<Option<T>, X509Error>`: `Except.error` models the "extension
present multiple times or invalid" case. -/
abbrev ExtLookup (T : Type) := Except Unit (Option T)

/-- The EC public key view used by `TryFrom<(COSEAlgorithm, &X509)> for
COSEKey`: `checkKeyOk` is the outcome of `ec_key.check_key()` on the
certificate's own key object, `curveNid` is `group().curve_name()`, and
`x`/`y` are the affine coordinates as minimal big-endian byte strings
(`BigNum::to_vec`, whose length is `num_bytes()`). -/
structure ECKeyRepr where
  checkKeyOk : Bool
  curveNid : Option Nat
  x : List Nat
  y : List Nat
  deriving Repr

/-- An X.509 certificate, as the results of the accessor calls made by
`crypto.rs`.  `publicKey` models `X509::public_key()`; `ecKey` models
`public_key().and_then(|pk| pk.ec_key())` (absent when the key is not an
EC key); `subjectEntryCount` models the openssl
`subject_name().entries().count()`; the remaining fields model the
`x509_parser` view used by the attestation requirement checks. -/
structure X509 where
  version : Nat := 0
  publicKey : Except Unit PKey := .error ()
  ecKey : Option ECKeyRepr := none
  subjectEntryCount : Nat := 0
  hasC : Bool := false
  hasO : Bool := false
  hasCN : Bool := false
  subjectOU : Option (Except Unit String) := none
  subjectAltName : ExtLookup SanExt := .ok none
  extendedKeyUsage : ExtLookup EkuExt := .ok none
  basicConstraints : ExtLookup BasicConstraintsExt := .ok none
  fidoGenCeAaguid : ExtLookup X509Ext := .ok none

/-- `x509_parser::x509::X509Version::V3` (the ASN.1 INTEGER value 2). -/
def X509Version.V3 : Nat := 2

/-- The free function `verify_signature` (`crypto.rs` lines 102-111):
extracts the certificate's public key and defers to
`pkey_verify_signature`. -/
def verify_signature_x509 (B : Backend) (alg : COSEAlgorithm) (pubk : X509)
    (signature verification_data : List Nat) : Except WebauthnError Bool :=
  match pubk.publicKey with
  | .error _ => .error .OpenSSLError
  | .ok pkey => pkey_verify_signature B pkey alg signature verification_data

/-- `impl TryFrom<(COSEAlgorithm, &X509)> for COSEKey`
(`crypto.rs` lines 610-670): only the ES* algorithms are convertible; the
certificate's EC key is checked, its curve name resolved, and the affine
coordinate byte lengths compared against the curve's coordinate size. -/
def COSEKey.tryFromX509 (alg : COSEAlgorithm) (pubk : X509) :
    Except WebauthnError COSEKey := do
  let key ←
    match alg with
    | .ES256 | .ES384 | .ES512 => do
        let ec_key ←
          match pubk.ecKey with
          | some ek => Except.ok ek
          | none => Except.error WebauthnError.OpenSSLError
        if ec_key.checkKeyOk = false then
          Except.error WebauthnError.OpenSSLError
        else
          let nid ←
            match ec_key.curveNid with
            | some nid => Except.ok nid
            | none => Except.error WebauthnError.OpenSSLErrorNoCurveName
          let curve ← ECDSACurve.fromNid nid
          if ec_key.x.length ≠ curve.coordinate_size ∨
              ec_key.y.length ≠ curve.coordinate_size then
            Except.error WebauthnError.COSEKeyECDSAXYInvalid
          else
            Except.ok (COSEKeyType.EC_EC2 ⟨curve, ec_key.x, ec_key.y⟩)
    | _ => Except.error WebauthnError.COSEKeyInvalidType
  Except.ok ⟨alg, key⟩

/-- `check_extension` (`crypto.rs` lines 115-145): a present extension must
satisfy the predicate; an absent extension is acceptable unless
`must_be_present`; a duplicated/invalid extension always fails.  Every
failure is `AttestationCertificateRequirementsNotMet`. -/
def check_extension {T : Type} (extension : ExtLookup T) (must_be_present : Bool)
    (f : T → Bool) : Except WebauthnError Unit :=
  match extension with
  | .ok (some e) =>
      if f e then .ok () else .error .AttestationCertificateRequirementsNotMet
  | .ok none =>
      if must_be_present then .error .AttestationCertificateRequirementsNotMet
      else .ok ()
  | .error _ => .error .AttestationCertificateRequirementsNotMet

/-- `assert_packed_attest_req` (`crypto.rs` lines 310-391): version must be
3; the subject must carry C, O and CN; the OU value must be the literal
string; the `id-fido-gen-ce-aaguid` extension (OID 1.3.6.1.4.1.45724.1.1.4,
looked up with `get_extension_unique`) may be absent but must not be
critical when present; Basic Constraints must be present with CA false. -/
def assert_packed_attest_req (cert : X509) : Except WebauthnError Unit :=
  if cert.version ≠ X509Version.V3 then
    .error .AttestationCertificateRequirementsNotMet
  else if cert.hasC = false ∨ cert.hasO = false ∨ cert.hasCN = false then
    .error .AttestationCertificateRequirementsNotMet
  else
    match cert.subjectOU with
    | some (.ok ou_d) =>
        if ou_d ≠ "Authenticator Attestation" then
          .error .AttestationCertificateRequirementsNotMet
        else
          match check_extension cert.fidoGenCeAaguid false
              (fun e => !e.critical) with
          | .error e => .error e
          | .ok _ =>
              match check_extension cert.basicConstraints true
                  (fun b => !b.ca) with
              | .error e => .error e
              | .ok _ => .ok ()
    | some (.error _) => .error .AttestationCertificateRequirementsNotMet
    | none => .error .AttestationCertificateRequirementsNotMet

/-! ## TPM AIK certificate requirements -/

/-- `TCG_AT_TPM_MANUFACTURER_RAW`: the DER content bytes of OID
2.23.133.2.1. -/
def TCG_AT_TPM_MANUFACTURER_RAW : List Nat := [103, 129, 5, 2, 1]

/-- `TCG_AT_TPM_MODEL_RAW`: the DER content bytes of OID 2.23.133.2.2. -/
def TCG_AT_TPM_MODEL_RAW : List Nat := [103, 129, 5, 2, 2]

/-- `TCG_AT_TPM_VERSION_RAW`: the DER content bytes of OID 2.23.133.2.3. -/
def TCG_AT_TPM_VERSION_RAW : List Nat := [103, 129, 5, 2, 3]

/-- The `tcg-kp-AIKCertificate` OID 2.23.133.8.3 as a component list
(compared via `der_parser` OID equality in the EKU check). -/
def TCG_KP_AIK_CERTIFICATE_OID : List Nat := [2, 23, 133, 8, 3]

/-- The `TpmSanDataBuilder` record (manufacturer/model/version, each
optional until seen). -/
structure TpmSanDataBuilder where
  manufacturer : Option String := none
  model : Option String := none
  version : Option String := none

/-- The `TpmSanData` record produced by a successful build. -/
structure TpmSanData where
  manufacturer : String
  model : String
  version : String

/-- The `try_fold` of `impl TryFrom<&X509Name> for TpmSanData`
(`crypto.rs` lines 201-219): walk the attributes, recording the string
value of each TCG manufacturer/model/version attribute (later occurrences
overwrite earlier ones); a matching attribute whose value is not a string
aborts the fold, which is surfaced as `ParseNOMFailure`. -/
def tpmSanFold (attrs : List DnAttr) : Except WebauthnError TpmSanDataBuilder :=
  attrs.foldlM
    (fun builder attr =>
      if attr.attrType = TCG_AT_TPM_MANUFACTURER_RAW then
        match attr.attrValueStr with
        | .ok s => .ok { builder with manufacturer := some s }
        | .error _ => .error WebauthnError.ParseNOMFailure
      else if attr.attrType = TCG_AT_TPM_MODEL_RAW then
        match attr.attrValueStr with
        | .ok s => .ok { builder with model := some s }
        | .error _ => .error WebauthnError.ParseNOMFailure
      else if attr.attrType = TCG_AT_TPM_VERSION_RAW then
        match attr.attrValueStr with
        | .ok s => .ok { builder with version := some s }
        | .error _ => .error WebauthnError.ParseNOMFailure
      else
        .ok builder)
    {}

/-- `TpmSanDataBuilder::build` (`crypto.rs` lines 180-191): all three
attributes must have been seen. -/
def TpmSanDataBuilder.build (b : TpmSanDataBuilder) : Except WebauthnError TpmSanData :=
  match b.manufacturer, b.model, b.version with
  | some m, some mo, some v => .ok ⟨m, mo, v⟩
  | _, _, _ => .error .AttestationCertificateRequirementsNotMet

/-- `TpmSanData::try_from` on a directory name: fold the attributes, then
build. -/
def tpmSanData (attrs : List DnAttr) : Except WebauthnError TpmSanData :=
  match tpmSanFold attrs with
  | .ok b => b.build
  | .error e => .error e

/-- Modelled from the spec: `tpm_device_attribute_parser` and
`TpmVendor::try_from` live in `crate::internals`, which is not under
`src/`.  Per the spec §4.6 and §8, the manufacturer attribute has the form
`id:` followed by a hex vendor identifier that must resolve to an entry of
the known TPM vendor table (e.g. `id:DEADBEEF` is not in the table); the
table itself is passed in as `vendorTable`. -/
def tpmManufacturerKnown (vendorTable : List String) (m : String) : Bool :=
  m.take 3 = "id:" && vendorTable.contains (m.drop 3)

/-- The closure passed to `any` over the SAN general names: a
`DirectoryName` whose TCG attributes build successfully and whose
manufacturer resolves to a known vendor. -/
def tpmDirNameOk (vendorTable : List String) : GeneralName → Bool
  | .directoryName attrs =>
      match tpmSanData attrs with
      | .ok sd => tpmManufacturerKnown vendorTable sd.manufacturer
      | .error _ => false
  | .other => false

/-- The predicate checked on the Subject Alternative Name extension: it must
be critical and some general name must be an acceptable TCG directory
name. -/
def tpmSanCheck (vendorTable : List String) (san : SanExt) : Bool :=
  san.critical && san.generalNames.any (tpmDirNameOk vendorTable)

/-- `assert_tpm_attest_req` (`crypto.rs` lines 222-304): version must be 3;
the subject must be empty; the SAN extension must be present, critical and
contain an acceptable TCG directory name; the EKU must contain
2.23.133.8.3; Basic Constraints must be present with CA false. -/
def assert_tpm_attest_req (vendorTable : List String) (cert : X509) :
    Except WebauthnError Unit :=
  if cert.version ≠ X509Version.V3 then
    .error .AttestationCertificateRequirementsNotMet
  else if cert.subjectEntryCount ≠ 0 then
    .error .AttestationCertificateRequirementsNotMet
  else
    match check_extension cert.subjectAltName true (tpmSanCheck vendorTable) with
    | .error e => .error e
    | .ok _ =>
        match check_extension cert.extendedKeyUsage true
            (fun eku => eku.other.contains TCG_KP_AIK_CERTIFICATE_OID) with
        | .error e => .error e
        | .ok _ =>
            match check_extension cert.basicConstraints true
                (fun b => !b.ca) with
            | .error e => .error e
            | .ok _ => .ok ()

/-! ## WebauthnBuilder and Webauthn (`webauthn-rs/src/lib.rs`) -/

/-- A `url::Url`, reduced to what the embedded code inspects: `domain()`
returns the host when it is a domain name (and `none` for e.g. an IP
address host or no host).  `raw` keeps the textual form so that distinct
origins stay distinct values. -/
structure Url where
  domain : Option String
  raw : String := ""
  deriving DecidableEq, Repr

/-- Modelled from the spec: `COSEAlgorithm::secure_algs` lives in `proto`
(not under `src/`); per spec §3 the secure defaults are all supported
signature algorithms except `INSECURE_RS1`. -/
def COSEAlgorithm.secure_algs : List COSEAlgorithm :=
  [.ES256, .ES384, .ES512, .RS256, .RS384, .RS512, .PS256, .PS384, .PS512, .EDDSA]

/-- `WebauthnBuilder` (`lib.rs` lines 184-192). -/
structure WebauthnBuilder where
  rp_name : Option String
  rp_id : String
  allowed_origins : List Url
  allow_subdomains : Bool
  allow_any_port : Bool
  algorithms : List COSEAlgorithm
  user_presence_only_security_keys : Bool
  deriving Repr

/-- Rust `str::ends_with`, modelled as a suffix test on the character
lists of the two strings. -/
def strEndsWith (s t : String) : Bool :=
  t.data.isSuffixOf s.data

/-- The validity check of `WebauthnBuilder::new` (`lib.rs` lines 229-236):
the origin must have a domain that either ends with `"." + rp_id` or equals
`rp_id`. -/
def rpIdValidForOrigin (rp_id : String) (origin : Url) : Bool :=
  match origin.domain with
  | some effective_domain =>
      strEndsWith effective_domain ("." ++ rp_id) || effective_domain == rp_id
  | none => false

/-- `WebauthnBuilder::new` (`lib.rs` lines 227-252). -/
def WebauthnBuilder.new (rp_id : String) (rp_origin : Url) :
    Except WebauthnError WebauthnBuilder :=
  if rpIdValidForOrigin rp_id rp_origin then
    .ok
      { rp_name := none
        rp_id := rp_id
        allowed_origins := [rp_origin]
        allow_subdomains := false
        allow_any_port := false
        algorithms := COSEAlgorithm.secure_algs
        user_presence_only_security_keys := false }
  else
    .error .Configuration

/-- `WebauthnBuilder::allow_subdomains` (`lib.rs` lines 261-264). -/
def WebauthnBuilder.allow_subdomains_set (b : WebauthnBuilder) (allow : Bool) :
    WebauthnBuilder :=
  { b with allow_subdomains := allow }

/-- `WebauthnBuilder::allow_any_port` (`lib.rs` lines 267-270). -/
def WebauthnBuilder.allow_any_port_set (b : WebauthnBuilder) (allow : Bool) :
    WebauthnBuilder :=
  { b with allow_any_port := allow }

/-- `WebauthnBuilder::append_allowed_origin` (`lib.rs` lines 275-278): the
origin is pushed without any validation. -/
def WebauthnBuilder.append_allowed_origin (b : WebauthnBuilder) (origin : Url) :
    WebauthnBuilder :=
  { b with allowed_origins := b.allowed_origins ++ [origin] }

/-- `WebauthnBuilder.rp_name` setter (`lib.rs` lines 284-287). -/
def WebauthnBuilder.rp_name_set (b : WebauthnBuilder) (rp_name : String) :
    WebauthnBuilder :=
  { b with rp_name := some rp_name }

/-- Modelled from the spec: `WebauthnCore` and
`WebauthnCore::new_unsafe_experts_only` live in `webauthn-rs-core` outside
`src/`; per spec §6 the configuration record is just the immutable site
configuration handed over by the builder. -/
structure WebauthnCore where
  rp_name : String
  rp_id : String
  allowed_origins : List Url
  attachment : Option Unit
  allow_subdomains : Option Bool
  allow_any_port : Option Bool
  deriving Repr

/-- `Webauthn` (`lib.rs` lines 368-373). -/
structure Webauthn where
  core : WebauthnCore
  algorithms : List COSEAlgorithm
  user_presence_only_security_keys : Bool
  deriving Repr

/-- `WebauthnBuilder::build` (`lib.rs` lines 315-328): constructs the
`Webauthn` value unconditionally and wraps it in `Ok`. -/
def WebauthnBuilder.build (b : WebauthnBuilder) : Except WebauthnError Webauthn :=
  .ok
    { core :=
        { rp_name := b.rp_name.getD b.rp_id
          rp_id := b.rp_id
          allowed_origins := b.allowed_origins
          attachment := none
          allow_subdomains := some b.allow_subdomains
          allow_any_port := some b.allow_any_port }
      algorithms := b.algorithms
      user_presence_only_security_keys := b.user_presence_only_security_keys }

/-! ## Registration start (`lib.rs`) -/

/-- `AttestationConveyancePreference` (W3C enum), as used by the start
functions. -/
inductive AttestationConveyancePreference where
  | None
  | Indirect
  | Direct
  deriving DecidableEq, Repr

/-- `UserVerificationPolicy`. -/
inductive UserVerificationPolicy where
  | Required
  | Preferred
  | Discouraged_DO_NOT_USE
  deriving DecidableEq, Repr

/-- One attestation CA entry: a DER certificate and the AAGUIDs it is
registered for (spec §6 trust-anchor inputs). -/
structure AttestationCa where
  ca : List Nat
  aaguids : List (List Nat)
  deriving DecidableEq, Repr

/-- `AttestationCaList`: the caller-supplied trust anchor list;
`AttestationCaList::is_empty` is emptiness of that list. -/
abbrev AttestationCaList := List AttestationCa

/-- The challenge response returned by a registration start, reduced to the
policy-relevant fields the embedded start functions decide
(spec §4.7: attestation preference and UV policy). -/
structure CreationChallengeResponse where
  attestation : AttestationConveyancePreference
  policy : Option UserVerificationPolicy
  deriving DecidableEq, Repr

/-- The core-side registration state produced by
`generate_challenge_register_options`, reduced likewise. -/
structure RegistrationState where
  attestation : AttestationConveyancePreference
  policy : Option UserVerificationPolicy
  deriving DecidableEq, Repr

/-- Modelled from the spec:
`WebauthnCore::generate_challenge_register_options` lives in
`webauthn-rs-core` outside `src/`; per spec §4.7 a registration start
issues a challenge response carrying the attestation preference and UV
policy and a matching server-side state, and does not itself fail for the
inputs the wrappers pass. -/
def generate_challenge_register_options
    (attestation : AttestationConveyancePreference)
    (policy : Option UserVerificationPolicy) :
    Except WebauthnError (CreationChallengeResponse × RegistrationState) :=
  .ok (⟨attestation, policy⟩, ⟨attestation, policy⟩)

/-- `SecurityKeyRegistration` (interface type): core state plus the caller's
CA list. -/
structure SecurityKeyRegistration where
  rs : RegistrationState
  ca_list : Option AttestationCaList
  deriving DecidableEq, Repr

/-- `AttestedPasskeyRegistration` (interface type). -/
structure AttestedPasskeyRegistration where
  rs : RegistrationState
  ca_list : AttestationCaList
  deriving DecidableEq, Repr

/-- `Webauthn::start_securitykey_registration` (`lib.rs` lines 692-763),
reduced to the attestation/CA-list/policy logic: a supplied CA list that is
empty is rejected with `MissingAttestationCaList`; a supplied non-empty
list selects the `Direct` attestation preference; no list selects `None`.
The UV policy is `Discouraged` when user-presence-only is configured and
`Preferred` otherwise.  The state stores the caller's CA list. -/
def Webauthn.start_securitykey_registration (w : Webauthn)
    (attestation_ca_list : Option AttestationCaList) :
    Except WebauthnError (CreationChallengeResponse × SecurityKeyRegistration) := do
  let attestation ←
    match attestation_ca_list with
    | some ca_list =>
        if ca_list.isEmpty then
          Except.error WebauthnError.MissingAttestationCaList
        else
          Except.ok AttestationConveyancePreference.Direct
    | none => Except.ok AttestationConveyancePreference.None
  let policy :=
    if w.user_presence_only_security_keys then
      some UserVerificationPolicy.Discouraged_DO_NOT_USE
    else
      some UserVerificationPolicy.Preferred
  let (ccr, rs) ← generate_challenge_register_options attestation policy
  Except.ok (ccr, { rs := rs, ca_list := attestation_ca_list })

/-- `Webauthn::start_attested_passkey_registration`
(`lib.rs` lines 981-1039), reduced likewise: the (non-optional) CA list
must be non-empty, the attestation preference is `Direct` and the UV policy
`Required`. -/
def Webauthn.start_attested_passkey_registration (_w : Webauthn)
    (attestation_ca_list : AttestationCaList) :
    Except WebauthnError (CreationChallengeResponse × AttestedPasskeyRegistration) := do
  let attestation := AttestationConveyancePreference.Direct
  if attestation_ca_list.isEmpty then
    Except.error WebauthnError.MissingAttestationCaList
  else
    let policy := some UserVerificationPolicy.Required
    let (ccr, rs) ← generate_challenge_register_options attestation policy
    Except.ok (ccr, { rs := rs, ca_list := attestation_ca_list })

/-! ## Concrete evaluation inputs -/

/-- Discriminates `Except.ok` from `Except.error`. -/
def exceptIsOk {ε α : Type} : Except ε α → Bool
  | .ok _ => true
  | .error _ => false

/-- A COSE key claiming the INSECURE_RS1 algorithm over RSA key material of
the invariant sizes. -/
def rs1DemoKey : COSEKey :=
  ⟨.INSECURE_RS1, .RSA ⟨List.replicate 256 1, [1, 0, 1]⟩⟩

/-- A certificate whose public key extraction succeeds (RSA material). -/
def rs1DemoCert : X509 :=
  { publicKey := .ok (.rsa (List.replicate 256 1) [1, 0, 1]) }

/-- An ES512 COSE key on P-521 with coordinate bytes of the invariant
length 66. -/
def es512DemoKey : COSEKey :=
  ⟨.ES512, .EC_EC2 ⟨.SECP521R1, List.replicate 66 1, List.replicate 66 2⟩⟩

/-- The bytes of the ASCII string `test`. -/
def testMessageBytes : List Nat := [116, 101, 115, 116]

/-- A well-formed OKP/EDDSA COSE_Key map: key type 1 (OKP), algorithm -8
(EDDSA), curve 6 (Ed25519), 32-byte x coordinate. -/
def okpDemoMap : CborValue :=
  .map [(1, .int 1), (3, .int (-8)), (-1, .int 6), (-2, .bytes (List.replicate 32 0))]

/-- A well-formed EC2/ES256 COSE_Key map with 32-byte coordinates. -/
def es256DemoMap : CborValue :=
  .map [(1, .int 2), (3, .int (-7)), (-1, .int 1),
    (-2, .bytes (List.replicate 32 1)), (-3, .bytes (List.replicate 32 2))]

/-- The key `es256DemoMap` decodes to. -/
def es256DemoKey : COSEKey :=
  ⟨.ES256, .EC_EC2 ⟨.SECP256R1, List.replicate 32 1, List.replicate 32 2⟩⟩

/-- A certificate carrying a P-256 EC key with 32-byte coordinates. -/
def es256DemoCert : X509 :=
  { ecKey := some ⟨true, some Nid.X9_62_PRIME256V1,
      List.replicate 32 1, List.replicate 32 2⟩ }

/-- A certificate meeting every packed-attestation requirement. -/
def packedGoodCert : X509 :=
  { version := 2
    hasC := true
    hasO := true
    hasCN := true
    subjectOU := some (.ok "Authenticator Attestation")
    basicConstraints := .ok (some ⟨false, false⟩)
    fidoGenCeAaguid := .ok none }

/-- `packedGoodCert` with the OU value replaced by the string `Other`. -/
def packedWrongOuCert : X509 :=
  { packedGoodCert with subjectOU := some (.ok "Other") }

/-- A demonstration TPM vendor table holding one hex vendor identifier. -/
def demoVendorTable : List String := ["1234ABCD"]

/-- A SAN with a TCG directory name for a vendor of `demoVendorTable`. -/
def tpmGoodSan : SanExt :=
  ⟨true, [.directoryName
      [⟨TCG_AT_TPM_MANUFACTURER_RAW, .ok "id:1234ABCD"⟩,
        ⟨TCG_AT_TPM_MODEL_RAW, .ok "SomeModel"⟩,
        ⟨TCG_AT_TPM_VERSION_RAW, .ok "1.0"⟩]]⟩

/-- `tpmGoodSan` with the manufacturer replaced by the unknown
`id:DEADBEEF`. -/
def tpmDeadbeefSan : SanExt :=
  ⟨true, [.directoryName
      [⟨TCG_AT_TPM_MANUFACTURER_RAW, .ok "id:DEADBEEF"⟩,
        ⟨TCG_AT_TPM_MODEL_RAW, .ok "SomeModel"⟩,
        ⟨TCG_AT_TPM_VERSION_RAW, .ok "1.0"⟩]]⟩

/-- A certificate meeting every TPM AIK requirement against
`demoVendorTable`. -/
def tpmGoodCert : X509 :=
  { version := 2
    subjectEntryCount := 0
    subjectAltName := .ok (some tpmGoodSan)
    extendedKeyUsage := .ok (some ⟨[TCG_KP_AIK_CERTIFICATE_OID]⟩)
    basicConstraints := .ok (some ⟨true, false⟩) }

/-- `tpmGoodCert` with the unknown manufacturer SAN. -/
def tpmDeadbeefCert : X509 :=
  { tpmGoodCert with subjectAltName := .ok (some tpmDeadbeefSan) }

/-- The origin `https://idm.example.com`. -/
def idmExampleOrigin : Url := ⟨some "idm.example.com", "https://idm.example.com"⟩

/-- The origin `https://attacker.example`, unrelated to `example.com`. -/
def attackerOrigin : Url := ⟨some "attacker.example", "https://attacker.example"⟩

/-- A `Webauthn` value as produced for rp_id `example.com` and origin
`https://idm.example.com`. -/
def demoWebauthn : Webauthn :=
  { core :=
      { rp_name := "example.com"
        rp_id := "example.com"
        allowed_origins := [idmExampleOrigin]
        attachment := none
        allow_subdomains := some false
        allow_any_port := some false }
    algorithms := COSEAlgorithm.secure_algs
    user_presence_only_security_keys := false }

/-- The length invariants of spec §3 on COSE key material: EC2 coordinates
match the curve's coordinate size, RSA has a 256-byte modulus and 3-byte
exponent, OKP has a 32-byte x. -/
def keyLengthInvariant (k : COSEKey) : Prop :=
  match k.key with
  | .EC_EC2 e =>
      e.x.length = e.curve.coordinate_size ∧ e.y.length = e.curve.coordinate_size
  | .RSA r => r.n.length = 256 ∧ r.e.length = 3
  | .EC_OKP o => o.x.length = 32

/-- The consistency table of spec §4.2 as a boolean predicate on the raw
key-type label and the decoded algorithm. -/
def consistencyPair (kt : Int) (alg : COSEAlgorithm) : Bool :=
  (kt == COSEKeyTypeId.EC_EC2 &&
      (alg == COSEAlgorithm.ES256 || alg == COSEAlgorithm.ES384 ||
        alg == COSEAlgorithm.ES512)) ||
    (kt == COSEKeyTypeId.EC_RSA && alg == COSEAlgorithm.RS256) ||
    (kt == COSEKeyTypeId.EC_OKP && alg == COSEAlgorithm.EDDSA)

/-! ## Helper lemmas about check_extension -/

/-- Characterisation of a successful `check_extension`: either the extension
is present (uniquely) and satisfies the predicate, or it is absent and was
not required. -/
theorem check_extension_eq_ok_iff {T : Type} (ext : ExtLookup T)
    (mbp : Bool) (f : T → Bool) (u : Unit) :
    check_extension ext mbp f = .ok u ↔
      ((∃ e, ext = .ok (some e) ∧ f e = true) ∨ (ext = .ok none ∧ mbp = false)) := by
  unfold check_extension
  rcases ext with w | oe
  · simp
  · rcases oe with _ | e
    · cases mbp <;> simp
    · by_cases hf : f e <;> simp [hf]

/-- The only error `check_extension` produces is
`AttestationCertificateRequirementsNotMet`. -/
theorem check_extension_error_acrnm {T : Type} (ext : ExtLookup T)
    (mbp : Bool) (f : T → Bool) (e : WebauthnError)
    (h : check_extension ext mbp f = .error e) :
    e = .AttestationCertificateRequirementsNotMet := by
  unfold check_extension at h
  repeat' split at h
  all_goals simp_all

/-! ## Claim theorems -/

/-- C1: for every COSE key of algorithm INSECURE_RS1 (with key material the
backend accepts) and for every X.509 key used at algorithm INSECURE_RS1,
`verify_signature` returns the `CredentialInsecureCryptography` error for
all signature and message inputs — no verification is performed and no
boolean verdict is returned. -/
theorem c1_insecure_rs1_always_rejected :
    (∀ (B : Backend) (p : PKey) (sig msg : List Nat),
        pkey_verify_signature B p .INSECURE_RS1 sig msg =
          .error .CredentialInsecureCryptography)
    ∧ (∀ (B : Backend) (k : COSEKey) (sig msg : List Nat),
        k.type_ = .INSECURE_RS1 → k.validate B = .ok () →
        k.verify_signature B sig msg = .error .CredentialInsecureCryptography)
    ∧ (∀ (B : Backend) (cert : X509) (p : PKey) (sig msg : List Nat),
        cert.publicKey = .ok p →
        verify_signature_x509 B .INSECURE_RS1 cert sig msg =
          .error .CredentialInsecureCryptography) := by
  refine ⟨fun B p sig msg => rfl, fun B k sig msg htype hval => ?_,
    fun B cert p sig msg hpk => ?_⟩
  · unfold COSEKey.verify_signature COSEKey.get_openssl_pkey
    unfold COSEKey.validate at hval
    rcases hk : k.key with e | r | o <;> rw [hk] at hval <;>
      simp only [] at hval ⊢
    · by_cases hc : B.ecCheckKey e.curve e.x e.y <;> simp [hc] at hval ⊢
      simp [htype, pkey_verify_signature]
    · by_cases hc : B.rsaFromComponents r.n r.e <;> simp [hc] at hval ⊢
      simp [htype, pkey_verify_signature]
    · simp at hval
  · unfold verify_signature_x509
    rw [hpk]
    rfl

/-- C1 witness: the theorem applied to a concrete INSECURE_RS1 RSA key and a
concrete certificate under a backend that accepts the key material. -/
theorem c1_insecure_rs1_witness :
    rs1DemoKey.type_ = .INSECURE_RS1
    ∧ rs1DemoKey.validate trivialBackend = .ok ()
    ∧ rs1DemoKey.verify_signature trivialBackend [1, 2] testMessageBytes =
        .error .CredentialInsecureCryptography
    ∧ verify_signature_x509 trivialBackend .INSECURE_RS1 rs1DemoCert [1, 2]
        testMessageBytes = .error .CredentialInsecureCryptography :=
  ⟨rfl, rfl,
    c1_insecure_rs1_always_rejected.2.1 trivialBackend rs1DemoKey [1, 2]
      testMessageBytes rfl rfl,
    c1_insecure_rs1_always_rejected.2.2 trivialBackend rs1DemoCert
      (.rsa (List.replicate 256 1) [1, 0, 1]) [1, 2] testMessageBytes rfl⟩

/-- C2 counterexample: a valid ES512 P-521 key (66-byte coordinates, backend
accepts the point) never returns a boolean verdict over the message
`test` — `verify_signature` fails with `COSEKeyInvalidType`, so the claimed
ES512 dispatch does not exist. -/
theorem c2_es512_counterexample :
    es512DemoKey.verify_signature trivialBackend [1, 2, 3] testMessageBytes =
      .error .COSEKeyInvalidType := rfl

/-- C2 (amended): `pkey_verify_signature` returns a boolean verdict only for
ES256 (SHA-256 ECDSA) and RS256 (SHA-256 PKCS1); ES384, ES512, RS384,
RS512, PS256, PS384, PS512 and EDDSA are all rejected with
`COSEKeyInvalidType`, and in particular every ES512 key whose material the
backend accepts fails verification with that error. -/
theorem c2_verify_signature_dispatch (B : Backend) (p : PKey)
    (sig msg : List Nat) :
    pkey_verify_signature B p .ES256 sig msg = .ok (B.verify p .ES256 sig msg)
    ∧ pkey_verify_signature B p .RS256 sig msg = .ok (B.verify p .RS256 sig msg)
    ∧ pkey_verify_signature B p .ES384 sig msg = .error .COSEKeyInvalidType
    ∧ pkey_verify_signature B p .ES512 sig msg = .error .COSEKeyInvalidType
    ∧ pkey_verify_signature B p .RS384 sig msg = .error .COSEKeyInvalidType
    ∧ pkey_verify_signature B p .RS512 sig msg = .error .COSEKeyInvalidType
    ∧ pkey_verify_signature B p .PS256 sig msg = .error .COSEKeyInvalidType
    ∧ pkey_verify_signature B p .PS384 sig msg = .error .COSEKeyInvalidType
    ∧ pkey_verify_signature B p .PS512 sig msg = .error .COSEKeyInvalidType
    ∧ pkey_verify_signature B p .EDDSA sig msg = .error .COSEKeyInvalidType
    ∧ (∀ (k : COSEKey), k.type_ = .ES512 → k.validate B = .ok () →
        k.verify_signature B sig msg = .error .COSEKeyInvalidType) := by
  refine ⟨rfl, rfl, rfl, rfl, rfl, rfl, rfl, rfl, rfl, rfl,
    fun k htype hval => ?_⟩
  unfold COSEKey.verify_signature COSEKey.get_openssl_pkey
  unfold COSEKey.validate at hval
  rcases hk : k.key with e | r | o <;> rw [hk] at hval <;>
    simp only [] at hval ⊢
  · by_cases hc : B.ecCheckKey e.curve e.x e.y <;> simp [hc] at hval ⊢
    simp [htype, pkey_verify_signature]
  · by_cases hc : B.rsaFromComponents r.n r.e <;> simp [hc] at hval ⊢
    simp [htype, pkey_verify_signature]

/-- C2 witness: the amended dispatch theorem applied at the concrete ES512
key, backend and the message `test`. -/
theorem c2_verify_signature_dispatch_witness :
    es512DemoKey.verify_signature trivialBackend [1, 2, 3] testMessageBytes =
      .error .COSEKeyInvalidType :=
  (c2_verify_signature_dispatch trivialBackend (.rsa [] []) [1, 2, 3]
    testMessageBytes).2.2.2.2.2.2.2.2.2.2 es512DemoKey rfl rfl

/-- C3 counterexample: a concrete well-formed OKP/EDDSA COSE_Key map
(key type 1, algorithm -8, curve Ed25519, 32-byte x) does not decode
successfully — `COSEKey::try_from` fails with `COSEKeyEDUnsupported`, so
parsing is rejected, contrary to the claim that decoding succeeds. -/
theorem c3_okp_decode_counterexample :
    COSEKey.tryFromCbor trivialBackend okpDemoMap =
      .error .COSEKeyEDUnsupported := rfl

/-- C3 (amended): for every well-formed OKP/EDDSA COSE_Key map (recognized
curve, 32-byte x), decoding fails with `COSEKeyEDUnsupported` — the decoder
itself runs `COSEKey::validate`, which rejects OKP material — so
`verify_signature` is never reached; moreover `verify_signature` on any key
holding OKP material fails with `COSEKeyInvalidType` (from
`get_openssl_pkey`), not `COSEKeyEDUnsupported`. -/
theorem c3_okp_parse_rejected (B : Backend) (m : List (Int × CborValue))
    (ktv ctv cvv xv : CborValue) (c : Int) (crv : EDDSACurve) (x : List Nat)
    (h1 : cborMapGet m 1 = some ktv) (h1i : cborTryI128 ktv = .ok 1)
    (h3 : cborMapGet m 3 = some ctv) (h3i : cborTryI128 ctv = .ok (-8))
    (hc1 : cborMapGet m (-1) = some cvv) (hci : cborTryI128 cvv = .ok c)
    (hcrv : EDDSACurve.fromI128 c = .ok crv)
    (hc2 : cborMapGet m (-2) = some xv) (hxb : cborTryBytes xv = .ok x)
    (hxlen : x.length = 32) :
    COSEKey.tryFromCbor B (.map m) = .error .COSEKeyEDUnsupported
    ∧ (∀ (k : COSEKey) (o : COSEOKPKey) (sig msg : List Nat),
        k.key = .EC_OKP o →
        k.verify_signature B sig msg = .error .COSEKeyInvalidType) := by
  constructor
  · simp [COSEKey.tryFromCbor, cborTryMap, h1, h1i, h3, h3i, hc1, hci, hcrv,
      hc2, hxb, hxlen, COSEAlgorithm.fromI128, COSEKeyTypeId.EC_EC2,
      COSEKeyTypeId.EC_RSA, COSEKeyTypeId.EC_OKP, COSEKey.validate,
      Except.bind, Bind.bind]
  · intro k o sig msg hk
    unfold COSEKey.verify_signature COSEKey.get_openssl_pkey
    rw [hk]

/-- C3 witness: the amended theorem applied at the concrete OKP map. -/
theorem c3_okp_parse_rejected_witness :
    COSEKey.tryFromCbor trivialBackend okpDemoMap =
      .error .COSEKeyEDUnsupported
    ∧ (⟨.EDDSA, .EC_OKP ⟨.ED25519, List.replicate 32 0⟩⟩ : COSEKey).verify_signature
        trivialBackend [1] testMessageBytes = .error .COSEKeyInvalidType := by
  have h := c3_okp_parse_rejected trivialBackend
    [(1, .int 1), (3, .int (-8)), (-1, .int 6), (-2, .bytes (List.replicate 32 0))]
    (.int 1) (.int (-8)) (.int 6) (.bytes (List.replicate 32 0)) 6 .ED25519
    (List.replicate 32 0) rfl rfl rfl rfl rfl rfl rfl rfl rfl (by simp)
  exact ⟨h.1, h.2 _ ⟨.ED25519, List.replicate 32 0⟩ [1] testMessageBytes rfl⟩

/-- C4: when a COSE_Key map carries integer labels 1 and 3 holding a key
type and a recognized algorithm whose pair is outside the consistency table
(EC2 with ES256/ES384/ES512, RSA with RS256, OKP with EDDSA), decoding
fails with `COSEKeyInvalidType`. -/
theorem c4_inconsistent_pair_rejected (B : Backend)
    (m : List (Int × CborValue)) (ktv ctv : CborValue) (kt ct : Int)
    (alg : COSEAlgorithm)
    (h1 : cborMapGet m 1 = some ktv) (h1i : cborTryI128 ktv = .ok kt)
    (h3 : cborMapGet m 3 = some ctv) (h3i : cborTryI128 ctv = .ok ct)
    (halg : COSEAlgorithm.fromI128 ct = .ok alg)
    (hpair : consistencyPair kt alg = false) :
    COSEKey.tryFromCbor B (.map m) = .error .COSEKeyInvalidType := by
  have hec2 : ¬(kt = COSEKeyTypeId.EC_EC2 ∧
      (alg = COSEAlgorithm.ES256 ∨ alg = COSEAlgorithm.ES384 ∨
        alg = COSEAlgorithm.ES512)) := by
    rintro ⟨hk, ha⟩
    have ht : consistencyPair kt alg = true := by
      unfold consistencyPair
      rcases ha with h | h | h <;> simp [hk, h]
    rw [ht] at hpair
    cases hpair
  have hrsa : ¬(kt = COSEKeyTypeId.EC_RSA ∧ alg = COSEAlgorithm.RS256) := by
    rintro ⟨hk, ha⟩
    have ht : consistencyPair kt alg = true := by
      unfold consistencyPair
      simp [hk, ha]
    rw [ht] at hpair
    cases hpair
  have hokp : ¬(kt = COSEKeyTypeId.EC_OKP ∧ alg = COSEAlgorithm.EDDSA) := by
    rintro ⟨hk, ha⟩
    have ht : consistencyPair kt alg = true := by
      unfold consistencyPair
      simp [hk, ha]
    rw [ht] at hpair
    cases hpair
  simp [COSEKey.tryFromCbor, cborTryMap, h1, h1i, h3, h3i, halg,
    hec2, hrsa, hokp, Except.bind, Bind.bind]

/-- C4 witness: the theorem applied at a concrete map pairing key type EC2
with algorithm EDDSA, a combination outside the consistency table. -/
theorem c4_inconsistent_pair_witness :
    COSEKey.tryFromCbor trivialBackend (.map [(1, .int 2), (3, .int (-8))]) =
      .error .COSEKeyInvalidType :=
  c4_inconsistent_pair_rejected trivialBackend [(1, .int 2), (3, .int (-8))]
    (.int 2) (.int (-8)) 2 (-8) .EDDSA rfl rfl rfl rfl rfl (by decide)

/-- C5: every successfully constructed COSE key satisfies the key-material
length invariants of spec §3 — EC2 coordinates have the curve's coordinate
size (32/48/66), RSA keys have a 256-byte modulus and 3-byte exponent —
whether the key was decoded from a CBOR map or extracted from an X.509
certificate; both constructors fail when a length differs. -/
theorem c5_key_length_invariant :
    (∀ (B : Backend) (d : CborValue) (k : COSEKey),
        COSEKey.tryFromCbor B d = .ok k → keyLengthInvariant k)
    ∧ (∀ (alg : COSEAlgorithm) (cert : X509) (k : COSEKey),
        COSEKey.tryFromX509 alg cert = .ok k → keyLengthInvariant k) := by
  constructor
  · intro B d k h
    unfold COSEKey.tryFromCbor at h
    rcases d with i | bts | s | m <;>
      simp only [cborTryMap, COSEKey.validate, Except.bind, Bind.bind] at h
    · simp at h
    · simp at h
    · simp at h
    · repeat' split at h
      all_goals try simp at h
      all_goals
        subst h
        unfold keyLengthInvariant
        simp_all
  · intro alg cert k h
    unfold COSEKey.tryFromX509 at h
    simp only [Except.bind, Bind.bind] at h
    repeat' split at h
    all_goals try simp at h
    all_goals
      subst h
      unfold keyLengthInvariant
      simp_all

/-- C5 witness: the theorem applied at a concrete EC2/ES256 CBOR map and at
a concrete certificate carrying a P-256 key. -/
theorem c5_key_length_invariant_witness :
    COSEKey.tryFromCbor trivialBackend es256DemoMap = .ok es256DemoKey
    ∧ keyLengthInvariant es256DemoKey
    ∧ COSEKey.tryFromX509 .ES256 es256DemoCert = .ok es256DemoKey
    ∧ keyLengthInvariant es256DemoKey :=
  ⟨rfl, c5_key_length_invariant.1 trivialBackend es256DemoMap es256DemoKey rfl,
    rfl, c5_key_length_invariant.2 .ES256 es256DemoCert es256DemoKey rfl⟩

/-- C6: the packed-attestation certificate check succeeds exactly when the
certificate is version 3, its subject carries C, O and CN, its OU equals
the literal string, Basic Constraints is present (uniquely) with CA false,
and the id-fido-gen-ce-aaguid extension, when present, is not critical;
every violation fails with `AttestationCertificateRequirementsNotMet`. -/
theorem c6_packed_attest_req_spec (cert : X509) :
    (assert_packed_attest_req cert = .ok () ↔
      (cert.version = X509Version.V3 ∧ cert.hasC = true ∧ cert.hasO = true
        ∧ cert.hasCN = true
        ∧ cert.subjectOU = some (.ok "Authenticator Attestation")
        ∧ (cert.fidoGenCeAaguid = .ok none ∨
            ∃ e, cert.fidoGenCeAaguid = .ok (some e) ∧ e.critical = false)
        ∧ (∃ bc, cert.basicConstraints = .ok (some bc) ∧ bc.ca = false)))
    ∧ (assert_packed_attest_req cert = .ok ()
        ∨ assert_packed_attest_req cert =
            .error .AttestationCertificateRequirementsNotMet) := by
  constructor
  · constructor
    · intro h
      unfold assert_packed_attest_req at h
      repeat' split at h
      all_goals simp_all [check_extension_eq_ok_iff]
      tauto
    · rintro ⟨h1, h2, h3, h4, h5, h6, b, hb, hca⟩
      rcases h6 with h6 | ⟨e, he, hcrit⟩
      · simp [assert_packed_attest_req, check_extension, h1, h2, h3, h4, h5,
          h6, hb, hca, X509Version.V3]
      · simp [assert_packed_attest_req, check_extension, h1, h2, h3, h4, h5,
          he, hcrit, hb, hca, X509Version.V3]
  · have hdi : ∀ (r : Except WebauthnError Unit),
        assert_packed_attest_req cert = r →
        r = .ok () ∨ r = .error .AttestationCertificateRequirementsNotMet := by
      intro r hr
      unfold assert_packed_attest_req at hr
      repeat' split at hr
      all_goals subst hr
      all_goals try (left; rfl)
      all_goals try (right; rfl)
      all_goals
        right
        exact congrArg Except.error
          (check_extension_error_acrnm _ _ _ _ (by assumption))
    exact hdi _ rfl

/-- C6 witness: the iff applied at a fully compliant concrete certificate,
and — via the same theorem — the rejection of the same certificate with its
OU replaced by the string `Other`. -/
theorem c6_packed_attest_req_witness :
    assert_packed_attest_req packedGoodCert = .ok ()
    ∧ assert_packed_attest_req packedWrongOuCert =
        .error .AttestationCertificateRequirementsNotMet := by
  constructor
  · exact (c6_packed_attest_req_spec packedGoodCert).1.mpr
      ⟨rfl, rfl, rfl, rfl, rfl, Or.inl rfl, ⟨⟨false, false⟩, rfl, rfl⟩⟩
  · rcases (c6_packed_attest_req_spec packedWrongOuCert).2 with hok | herr
    · have hc := (c6_packed_attest_req_spec packedWrongOuCert).1.mp hok
      exact absurd hc.2.2.2.2.1 (by simp [packedWrongOuCert, packedGoodCert])
    · exact herr

/-- C7: the TPM AIK certificate check succeeds exactly when the certificate
is version 3, its subject is empty, its SAN is present (uniquely), critical
and contains a directoryName whose TCG attributes build and whose
manufacturer resolves to a known TPM vendor, its EKU contains 2.23.133.8.3,
and Basic Constraints is present with CA false; every violation fails with
`AttestationCertificateRequirementsNotMet`. -/
theorem c7_tpm_attest_req_spec (vendorTable : List String) (cert : X509) :
    (assert_tpm_attest_req vendorTable cert = .ok () ↔
      (cert.version = X509Version.V3 ∧ cert.subjectEntryCount = 0
        ∧ (∃ san, cert.subjectAltName = .ok (some san) ∧ san.critical = true
            ∧ san.generalNames.any (tpmDirNameOk vendorTable) = true)
        ∧ (∃ eku, cert.extendedKeyUsage = .ok (some eku)
            ∧ eku.other.contains TCG_KP_AIK_CERTIFICATE_OID = true)
        ∧ (∃ bc, cert.basicConstraints = .ok (some bc) ∧ bc.ca = false)))
    ∧ (assert_tpm_attest_req vendorTable cert = .ok ()
        ∨ assert_tpm_attest_req vendorTable cert =
            .error .AttestationCertificateRequirementsNotMet) := by
  constructor
  · constructor
    · intro h
      unfold assert_tpm_attest_req at h
      repeat' split at h
      all_goals simp_all [check_extension_eq_ok_iff, tpmSanCheck]
    · rintro ⟨h1, h2, ⟨san, hsan, hcrit, hany⟩, ⟨eku, heku, hoid⟩, b, hb, hca⟩
      have hoid2 : TCG_KP_AIK_CERTIFICATE_OID ∈ eku.other := by
        simpa using hoid
      simp [assert_tpm_attest_req, check_extension, tpmSanCheck, h1, h2, hsan,
        hcrit, hany, heku, hoid2, hb, hca, X509Version.V3]
  · have hdi : ∀ (r : Except WebauthnError Unit),
        assert_tpm_attest_req vendorTable cert = r →
        r = .ok () ∨ r = .error .AttestationCertificateRequirementsNotMet := by
      intro r hr
      unfold assert_tpm_attest_req at hr
      repeat' split at hr
      all_goals subst hr
      all_goals try (left; rfl)
      all_goals try (right; rfl)
      all_goals
        right
        exact congrArg Except.error
          (check_extension_error_acrnm _ _ _ _ (by assumption))
    exact hdi _ rfl

/-- C7 witness: the iff applied at a fully compliant concrete certificate
(manufacturer in the vendor table), and — via the same theorem — the
rejection of the same certificate once the SAN manufacturer is the unknown
`id:DEADBEEF`. -/
theorem c7_tpm_attest_req_witness :
    assert_tpm_attest_req demoVendorTable tpmGoodCert = .ok ()
    ∧ assert_tpm_attest_req demoVendorTable tpmDeadbeefCert =
        .error .AttestationCertificateRequirementsNotMet := by
  constructor
  · exact (c7_tpm_attest_req_spec demoVendorTable tpmGoodCert).1.mpr
      ⟨rfl, rfl, ⟨tpmGoodSan, rfl, rfl, by decide⟩,
        ⟨⟨[TCG_KP_AIK_CERTIFICATE_OID]⟩, rfl, by decide⟩,
        ⟨⟨true, false⟩, rfl, rfl⟩⟩
  · rcases (c7_tpm_attest_req_spec demoVendorTable tpmDeadbeefCert).2 with hok | herr
    · have hc := (c7_tpm_attest_req_spec demoVendorTable tpmDeadbeefCert).1.mp hok
      obtain ⟨san, hsan, _, hany⟩ := hc.2.2.1
      have hsan2 : san = tpmDeadbeefSan := by
        have : (Except.ok (some tpmDeadbeefSan) : ExtLookup SanExt) =
            .ok (some san) := hsan
        simpa using this.symm
      rw [hsan2] at hany
      exact absurd hany (by decide)
    · exact herr

/-- C8 counterexample: starting from the valid pairing rp_id `example.com`
with origin `https://idm.example.com`, appending the unrelated origin
`https://attacker.example` still constructs successfully (`build` returns
`Ok`), although that origin's domain is neither `example.com` nor ends with
`.example.com` — so construction does not require the registrable-suffix
property of every allowed origin. -/
theorem c8_append_origin_counterexample :
    ((WebauthnBuilder.new "example.com" idmExampleOrigin).map
        (fun b =>
          let b2 := b.append_allowed_origin attackerOrigin
          (exceptIsOk b2.build,
            b2.allowed_origins.map (rpIdValidForOrigin "example.com")))) =
      .ok (true, [true, false]) := rfl

/-- C8 (amended): `WebauthnBuilder::new` succeeds exactly when the initial
origin's domain equals rp_id or ends with `"." + rp_id`, and fails with the
`Configuration` error otherwise; origins added later with
`append_allowed_origin` are pushed without validation and `build` never
re-checks them, so the registrable-suffix requirement is enforced only for
the origin given to `new`. -/
theorem c8_rp_id_validation (rp_id : String) (u : Url) (b : WebauthnBuilder)
    (o : Url) :
    ((∃ bld, WebauthnBuilder.new rp_id u = .ok bld) ↔
      rpIdValidForOrigin rp_id u = true)
    ∧ (rpIdValidForOrigin rp_id u = false →
        WebauthnBuilder.new rp_id u = .error .Configuration)
    ∧ (b.append_allowed_origin o).allowed_origins = b.allowed_origins ++ [o]
    ∧ (∃ w, (b.append_allowed_origin o).build = .ok w) := by
  refine ⟨?_, ?_, rfl, ⟨_, rfl⟩⟩
  · unfold WebauthnBuilder.new
    by_cases hv : rpIdValidForOrigin rp_id u = true <;> simp [hv]
  · intro hv
    unfold WebauthnBuilder.new
    rw [if_neg]
    rw [hv]
    exact Bool.false_ne_true

/-- C8 witness: the amended theorem applied at the invalid pairing of rp_id
`example.com` with origin `https://attacker.example`, and at a concrete
append. -/
theorem c8_rp_id_validation_witness :
    WebauthnBuilder.new "example.com" attackerOrigin = .error .Configuration :=
  (c8_rp_id_validation "example.com" attackerOrigin
    { rp_name := none, rp_id := "example.com", allowed_origins := []
      allow_subdomains := false, allow_any_port := false
      algorithms := [], user_presence_only_security_keys := false }
    attackerOrigin).2.1 (by decide)

/-- C9 counterexample: a registration ceremony started with an explicitly
supplied empty attestation CA list does not proceed — it fails with
`MissingAttestationCaList` — contradicting the claim that an empty list
merely disables attestation-trust enforcement. -/
theorem c9_empty_ca_list_counterexample :
    demoWebauthn.start_securitykey_registration (some []) =
      .error .MissingAttestationCaList := rfl

/-- C9 (amended): supplying an empty attestation CA list (`Some` of an empty
list) fails with `MissingAttestationCaList`, both for security-key
registration and for attested-passkey registration (which requires
attestation); attestation-trust enforcement is disabled by supplying no
list at all (`None`), in which case registration proceeds with attestation
preference `None` and no stored CA list, while a non-empty list selects
`Direct` and is stored in the state. -/
theorem c9_empty_ca_list_rejected (w : Webauthn) (l : AttestationCaList) :
    (w.start_securitykey_registration (some []) =
        .error .MissingAttestationCaList)
    ∧ (l.isEmpty = true →
        w.start_securitykey_registration (some l) =
          .error .MissingAttestationCaList)
    ∧ (∃ ccr st, w.start_securitykey_registration none = .ok (ccr, st)
        ∧ st.ca_list = none ∧ ccr.attestation = .None)
    ∧ (l.isEmpty = false →
        ∃ ccr st, w.start_securitykey_registration (some l) = .ok (ccr, st)
          ∧ st.ca_list = some l ∧ ccr.attestation = .Direct)
    ∧ (w.start_attested_passkey_registration [] =
        .error .MissingAttestationCaList) := by
  refine ⟨rfl, fun he => ?_, ?_, fun hne => ?_, rfl⟩
  · simp [Webauthn.start_securitykey_registration, he, Except.bind, Bind.bind]
  · exact ⟨_, _, rfl, rfl, rfl⟩
  · rcases hw : w.user_presence_only_security_keys
    · exact ⟨⟨.Direct, some .Preferred⟩,
        ⟨⟨.Direct, some .Preferred⟩, some l⟩,
        by simp [Webauthn.start_securitykey_registration, hne, hw,
          generate_challenge_register_options, Except.bind, Bind.bind],
        rfl, rfl⟩
    · exact ⟨⟨.Direct, some .Discouraged_DO_NOT_USE⟩,
        ⟨⟨.Direct, some .Discouraged_DO_NOT_USE⟩, some l⟩,
        by simp [Webauthn.start_securitykey_registration, hne, hw,
          generate_challenge_register_options, Except.bind, Bind.bind],
        rfl, rfl⟩

/-- C9 witness: the amended theorem applied at the concrete configuration,
an empty and a singleton CA list. -/
theorem c9_empty_ca_list_rejected_witness :
    (∃ ccr st,
        demoWebauthn.start_securitykey_registration
            (some [⟨[1], [List.replicate 16 0]⟩]) = .ok (ccr, st)
          ∧ st.ca_list = some [⟨[1], [List.replicate 16 0]⟩]
          ∧ ccr.attestation = .Direct)
    ∧ demoWebauthn.start_attested_passkey_registration [] =
        .error .MissingAttestationCaList :=
  ⟨(c9_empty_ca_list_rejected demoWebauthn
      [⟨[1], [List.replicate 16 0]⟩]).2.2.2.1 rfl,
    (c9_empty_ca_list_rejected demoWebauthn
      [⟨[1], [List.replicate 16 0]⟩]).2.2.2.2⟩

/-- C10: `WebauthnBuilder::build` returns `Ok` for every builder value; all
configuration validation happens in `WebauthnBuilder::new`. -/
theorem c10_build_always_ok (b : WebauthnBuilder) :
    ∃ w, b.build = .ok w :=
  ⟨_, rfl⟩

end WebauthnRs
